import Mathlib

/-!
Verification of the path-resolution subsystem of jmxproxybeat, embedded from
src/vendor/github.com/elastic/beats/libbeat/paths/paths.go.

Platform functions from the Go standard library (filepath.IsAbs, filepath.Clean,
filepath.Join for Unix, os.MkdirAll) are modelled from their documented
semantics; the package code itself (Path, initPaths, InitPaths, Resolve) is
embedded directly from the source.  Effects are made explicit: the result of
filepath.Abs(filepath.Dir(os.Args[0])) is a parameter, the filesystem is an
explicit FS value, and a Go panic is modelled as the value none.
-/

namespace paths

/-- Splits a character list on the separator character, accumulating the
current component in reverse in the second argument.  Helper for the model of
Go path cleaning. -/
def splitSlash : List Char → List Char → List (List Char)
  | [], acc => [acc.reverse]
  | c :: rest, acc =>
    if c = '/' then acc.reverse :: splitSlash rest []
    else splitSlash rest (c :: acc)

/-- One step of Go path.Clean element processing: skip a dot component, let a
dotdot component pop the previous component (dropped entirely at the root of a
rooted path, kept when nothing poppable remains in a relative path), and push
any other component.  The accumulator holds the output components in reverse. -/
def cleanPush (rooted : Bool) (acc : List (List Char)) (comp : List Char) : List (List Char) :=
  if comp = ['.'] then acc
  else if comp = ['.', '.'] then
    match acc with
    | [] => if rooted then [] else [['.', '.']]
    | t :: rest => if t = ['.', '.'] then comp :: acc else rest
  else comp :: acc

/-- Rejoins path components with single separator characters. -/
def joinComps : List (List Char) → List Char
  | [] => []
  | [c] => c
  | c :: c2 :: rest => c ++ '/' :: joinComps (c2 :: rest)

/-- Models Go filepath.IsAbs on Unix: a path is absolute iff it begins with
the separator character. -/
def filepathIsAbs (s : String) : Bool :=
  match s.data with
  | c :: _ => c = '/'
  | [] => false

/-- Models Go filepath.Clean on Unix: collapse repeated separators, drop dot
components, resolve dotdot components against preceding components (dropping
them at the root of a rooted path), and return a dot for an empty result. -/
def clean (s : String) : String :=
  let rooted := filepathIsAbs s
  let comps := (splitSlash s.data []).filter (fun c => c ≠ [])
  let out := (comps.foldl (cleanPush rooted) []).reverse
  let res := (if rooted then ['/'] else []) ++ joinComps out
  if res = [] then String.mk ['.'] else String.mk res

/-- Models Go filepath.Join on Unix for two elements: empty elements are
ignored, the remaining elements are joined with the separator and the result
is cleaned; the result is empty iff both elements are empty. -/
def filepathJoin (a b : String) : String :=
  if a.length = 0 then
    if b.length = 0 then String.mk [] else clean b
  else clean (String.mk (a.data ++ '/' :: b.data))

/-- Non-empty components of a path, used by the filesystem model. -/
def pathComponents (s : String) : List (List Char) :=
  (splitSlash s.data []).filter (fun c => c ≠ [])

/-- All component-wise prefix paths of a path, from the first component up to
the whole (component-normalised) path. -/
def pathPrefixes (s : String) : List String :=
  let comps := pathComponents s
  (List.range comps.length).map (fun i =>
    String.mk ((if filepathIsAbs s then ['/'] else []) ++ joinComps (comps.take (i + 1))))

/-- The proper ancestor directories of a path (every prefix path except the
last). -/
def properAncestors (s : String) : List String := (pathPrefixes s).dropLast

/-- Embeds the struct Path of the paths package: the four directory fields
Home, Config, Data and Logs. -/
structure Path where
  Home : String
  Config : String
  Data : String
  Logs : String
deriving Repr, DecidableEq

/-- The values of the four CLI flags path.home, path.config, path.data and
path.logs declared by the paths package; none models a nil flag pointer. -/
structure Flags where
  homePath : Option String
  configPath : Option String
  dataPath : Option String
  logsPath : Option String
deriving Repr, DecidableEq

/-- The two failure modes of initialization: the error returned when the
absolute path of the executable directory cannot be obtained, and the error
returned when creating the data path fails, carrying the attempted path and
the underlying cause. -/
inductive PathError where
  | homeUnresolvable (cause : String)
  | dataDirCreateFailed (path : String) (cause : String)
deriving Repr, DecidableEq

/-- A filesystem: existing directories with their creation mode, and existing
non-directory entries. -/
structure FS where
  dirs : List (String × Nat)
  files : List String
deriving Repr, DecidableEq

/-- Names of the existing directories of a filesystem. -/
def FS.dirNames (fs : FS) : List String := fs.dirs.map Prod.fst

/-- Models Go os.MkdirAll from its documented semantics: if the path is
already a directory nothing is done and success is returned; if the path or
one of its ancestors exists as a non-directory an error is returned; otherwise
the missing ancestors and the directory itself are created with the given
permission mode and success is returned. -/
def FS.mkdirAll (fs : FS) (path : String) (perm : Nat) : FS × Option String :=
  if fs.dirNames.contains path then (fs, none)
  else if fs.files.contains path then (fs, some ("not a directory"))
  else if (properAncestors path).any (fun q => fs.files.contains q) then
    (fs, some ("not a directory"))
  else
    let toAdd := ((properAncestors path).filter (fun q => !fs.dirNames.contains q)) ++ [path]
    ({ fs with dirs := fs.dirs ++ toAdd.map (fun q => (q, perm)) }, none)

/-- Embeds type FileType string of the paths package. -/
abbrev FileType := String

/-- Embeds the constant Home of the paths package. -/
def FileType.Home : FileType := "home"

/-- Embeds the constant Config of the paths package. -/
def FileType.Config : FileType := "config"

/-- Embeds the constant Data of the paths package. -/
def FileType.Data : FileType := "data"

/-- Embeds the constant Logs of the paths package. -/
def FileType.Logs : FileType := "logs"

/-- Embeds the first four assignments of Path.initPaths: every field of the
receiver is unconditionally overwritten with the corresponding field of the
supplied configuration. -/
def setFromConfig (paths cfg : Path) : Path :=
  { paths with Home := cfg.Home, Config := cfg.Config, Data := cfg.Data, Logs := cfg.Logs }

/-- One CLI-flag overwrite of Path.initPaths for a single field: the current
value is replaced when the flag pointer is non-nil and the flag value is
non-empty, and kept otherwise. -/
def overrideVal (cur : String) (flag : Option String) : String :=
  match flag with
  | some v => if 0 < v.length then v else cur
  | none => cur

/-- Embeds the CLI-flag overwrite block of Path.initPaths: each of the four
fields is independently replaced by the corresponding flag value when that
flag is non-nil and non-empty. -/
def applyCLIOverrides (p : Path) (flags : Flags) : Path :=
  { Home := overrideVal p.Home flags.homePath,
    Config := overrideVal p.Config flags.configPath,
    Data := overrideVal p.Data flags.dataPath,
    Logs := overrideVal p.Logs flags.logsPath }

/-- The state of the struct after the configuration assignment and the
CLI-flag overwrite block of Path.initPaths, before any default is applied. -/
def afterOverrides (paths cfg : Path) (flags : Flags) : Path :=
  applyCLIOverrides (setFromConfig paths cfg) flags

/-- Embeds the default block of Path.initPaths for the config path: an empty
config path defaults to the home path. -/
def defaultConfig (p : Path) : Path :=
  if p.Config.length = 0 then { p with Config := p.Home } else p

/-- Embeds the default block of Path.initPaths for the data path: an empty
data path defaults to the home path joined with data. -/
def defaultData (p : Path) : Path :=
  if p.Data.length = 0 then { p with Data := filepathJoin p.Home ("data") } else p

/-- Embeds the default block of Path.initPaths for the logs path: an empty
logs path defaults to the home path joined with logs. -/
def defaultLogs (p : Path) : Path :=
  if p.Logs.length = 0 then { p with Logs := filepathJoin p.Home ("logs") } else p

/-- Embeds the three default blocks of Path.initPaths that run after the home
path is resolved, in source order: config, then data, then logs. -/
def applyDefaults (p : Path) : Path :=
  defaultLogs (defaultData (defaultConfig p))

/-- Embeds Path.initPaths.  The parameter execDirAbs is the result of
filepath.Abs(filepath.Dir(os.Args[0])), the effectful call used for the home
default.  The result pairs the written-back struct with the returned error:
on failure the struct still holds the values assigned before the failure. -/
def Path.initPaths (paths : Path) (cfg : Path) (flags : Flags)
    (execDirAbs : Except String String) : Path × Option PathError :=
  let p := afterOverrides paths cfg flags
  if p.Home.length = 0 then
    match execDirAbs with
    | Except.error msg => (p, some (PathError.homeUnresolvable msg))
    | Except.ok h => (applyDefaults { p with Home := h }, none)
  else
    (applyDefaults p, none)

/-- Embeds Path.InitPaths: run initPaths, then create the data path with mode
0755, wrapping a creation failure in an error that carries the data path and
the cause.  The result carries the written-back struct, the filesystem after
the call, and the returned error. -/
def Path.InitPaths (paths : Path) (cfg : Path) (flags : Flags)
    (execDirAbs : Except String String) (fs : FS) : Path × FS × Option PathError :=
  match paths.initPaths cfg flags execDirAbs with
  | (p, some e) => (p, fs, some e)
  | (p, none) =>
    match fs.mkdirAll p.Data 0o755 with
    | (fs2, some cause) => (p, fs2, some (PathError.dataDirCreateFailed p.Data cause))
    | (fs2, none) => (p, fs2, none)

/-- Embeds Path.Resolve: an absolute path is returned unchanged; otherwise the
path is joined onto the field selected by the file type, and an unknown file
type panics, modelled as none. -/
def Path.Resolve (paths : Path) (fileType : FileType) (path : String) : Option String :=
  if filepathIsAbs path then some path
  else if fileType = FileType.Home then some (filepathJoin paths.Home path)
  else if fileType = FileType.Config then some (filepathJoin paths.Config path)
  else if fileType = FileType.Data then some (filepathJoin paths.Data path)
  else if fileType = FileType.Logs then some (filepathJoin paths.Logs path)
  else none

/-- A flag value that supplies no override: a nil pointer or an empty value. -/
def flagEmpty (o : Option String) : Prop := o = none ∨ o = some ("")

/-- A string that is either empty or an absolute path. -/
def absOrEmpty (s : String) : Prop := s.length = 0 ∨ filepathIsAbs s = true

/-- A flag whose value, when present, is empty or absolute. -/
def flagAbsOrEmpty (o : Option String) : Prop := ∀ v, o = some v → absOrEmpty v

instance (o : Option String) : Decidable (flagEmpty o) := by
  unfold flagEmpty
  infer_instance

instance (s : String) : Decidable (absOrEmpty s) := by
  unfold absOrEmpty
  infer_instance

instance (o : Option String) : Decidable (flagAbsOrEmpty o) :=
  match o with
  | none => isTrue (fun _ hv => Option.noConfusion hv)
  | some v => decidable_of_iff (absOrEmpty v)
      ⟨fun h _w hw => (Option.some.inj hw) ▸ h, fun h => h v rfl⟩

example : clean ("a//b/./../c") = "a/c" := by decide
example : clean ("/") = "/" := by decide
example : clean ("") = "." := by decide
example : filepathJoin ("/opt/app") ("logs") = "/opt/app/logs" := by decide
example : filepathJoin ("") ("x") = "x" := by decide
example : pathPrefixes ("/a/b/c") = ["/a", "/a/b", "/a/b/c"] := by decide
example : properAncestors ("/a/b/c") = ["/a", "/a/b"] := by decide
example :
    (Path.InitPaths ⟨"", "", "", ""⟩ ⟨"/opt/app", "", "", ""⟩
      ⟨none, none, some ("/var/lib/app"), none⟩ (Except.ok ("/e")) ⟨[], []⟩) =
    (⟨"/opt/app", "/opt/app", "/var/lib/app", "/opt/app/logs"⟩,
      ⟨[("/var", 0o755), ("/var/lib", 0o755), ("/var/lib/app", 0o755)], []⟩, none) := by decide

/-- Claim C1: for every initialized resolver and every path argument, an absolute
path is returned unchanged by Resolve for every one of the four categories
regardless of the configured paths, and a relative path is resolved to the
platform path-join of the resolver's value for the requested category with
the path; in particular resolving beat.yml against the config category joins
the config path with beat.yml. -/
theorem resolve_correct (p : Path) (path : String) :
    (filepathIsAbs path = true →
      p.Resolve FileType.Home path = some path ∧
      p.Resolve FileType.Config path = some path ∧
      p.Resolve FileType.Data path = some path ∧
      p.Resolve FileType.Logs path = some path) ∧
    (filepathIsAbs path = false →
      p.Resolve FileType.Home path = some (filepathJoin p.Home path) ∧
      p.Resolve FileType.Config path = some (filepathJoin p.Config path) ∧
      p.Resolve FileType.Data path = some (filepathJoin p.Data path) ∧
      p.Resolve FileType.Logs path = some (filepathJoin p.Logs path)) ∧
    p.Resolve FileType.Config ("beat.yml") = some (filepathJoin p.Config ("beat.yml")) := by
  refine ⟨fun h => ?_, fun h => ?_, ?_⟩
  · simp [Path.Resolve, h]
  · refine ⟨?_, ?_, ?_, ?_⟩ <;>
      simp [Path.Resolve, h, FileType.Home, FileType.Config, FileType.Data, FileType.Logs]
  · have h : filepathIsAbs ("beat.yml") = false := by decide
    simp [Path.Resolve, h, FileType.Home, FileType.Config, FileType.Data, FileType.Logs]

/-- Witness for C1 at a concrete resolver and path. -/
theorem resolve_correct_witness :
    (filepathIsAbs ("/abs") = true →
      (Path.mk ("/h") ("/c") ("/d") ("/l")).Resolve FileType.Home ("/abs") = some ("/abs") ∧
      (Path.mk ("/h") ("/c") ("/d") ("/l")).Resolve FileType.Config ("/abs") = some ("/abs") ∧
      (Path.mk ("/h") ("/c") ("/d") ("/l")).Resolve FileType.Data ("/abs") = some ("/abs") ∧
      (Path.mk ("/h") ("/c") ("/d") ("/l")).Resolve FileType.Logs ("/abs") = some ("/abs")) ∧
    (filepathIsAbs ("/abs") = false →
      (Path.mk ("/h") ("/c") ("/d") ("/l")).Resolve FileType.Home ("/abs") =
        some (filepathJoin ("/h") ("/abs")) ∧
      (Path.mk ("/h") ("/c") ("/d") ("/l")).Resolve FileType.Config ("/abs") =
        some (filepathJoin ("/c") ("/abs")) ∧
      (Path.mk ("/h") ("/c") ("/d") ("/l")).Resolve FileType.Data ("/abs") =
        some (filepathJoin ("/d") ("/abs")) ∧
      (Path.mk ("/h") ("/c") ("/d") ("/l")).Resolve FileType.Logs ("/abs") =
        some (filepathJoin ("/l") ("/abs"))) ∧
    (Path.mk ("/h") ("/c") ("/d") ("/l")).Resolve FileType.Config ("beat.yml") =
      some (filepathJoin ("/c") ("beat.yml")) :=
  resolve_correct (Path.mk ("/h") ("/c") ("/d") ("/l")) ("/abs")

/-- Counterexample to claim C6 as stated: with an absolute path argument,
Resolve returns the path unchanged even for a category outside the four
enumerated tags, instead of aborting. -/
theorem resolve_unknown_cex :
    (Path.mk ("/h") ("/c") ("/d") ("/l")).Resolve ("bogus") ("/x") = some ("/x") ∧
    (Path.mk ("/h") ("/c") ("/d") ("/l")).Resolve ("bogus") ("/x") ≠ none := by
  decide

/-- Claim C6 amended: for a relative path argument, a category outside the
closed set of the four enumerated tags makes Resolve panic, modelled as the
value none, rather than return any string. -/
theorem resolve_unknown_aborts (p : Path) (t : FileType) (path : String)
    (hrel : filepathIsAbs path = false)
    (ht : t ≠ FileType.Home ∧ t ≠ FileType.Config ∧ t ≠ FileType.Data ∧ t ≠ FileType.Logs) :
    p.Resolve t path = none := by
  obtain ⟨h1, h2, h3, h4⟩ := ht
  simp [Path.Resolve, hrel, h1, h2, h3, h4]

/-- Witness for C6 at a concrete unknown category. -/
theorem resolve_unknown_aborts_witness :
    filepathIsAbs ("x") = false ∧
    (("bogus" : FileType) ≠ FileType.Home ∧ ("bogus" : FileType) ≠ FileType.Config ∧
      ("bogus" : FileType) ≠ FileType.Data ∧ ("bogus" : FileType) ≠ FileType.Logs) ∧
    (Path.mk ("/h") ("/c") ("/d") ("/l")).Resolve ("bogus") ("x") = none :=
  ⟨by decide, by decide,
    resolve_unknown_aborts (Path.mk ("/h") ("/c") ("/d") ("/l")) ("bogus") ("x")
      (by decide) (by decide)⟩

/-- Claim C9: an absolute path argument is returned unchanged by Resolve for every
category value, including values outside the four enumerated tags, because
the absolute-path check precedes the category dispatch; the unknown-category
panic is therefore reachable only for relative path arguments. -/
theorem resolve_absolute_ignores_category (p : Path) (t : FileType) (path : String)
    (h : filepathIsAbs path = true) : p.Resolve t path = some path := by
  simp [Path.Resolve, h]

/-- Witness for C9 with an unknown category and an absolute path. -/
theorem resolve_absolute_ignores_category_witness :
    filepathIsAbs ("/x") = true ∧
    (Path.mk ("/h") ("/c") ("/d") ("/l")).Resolve ("bogus") ("/x") = some ("/x") :=
  ⟨by decide,
    resolve_absolute_ignores_category (Path.mk ("/h") ("/c") ("/d") ("/l")) ("bogus") ("/x")
      (by decide)⟩

/-- Claim C8: initialization is independent of the prior resolver state: for any
two prior states and the same inputs, InitPaths produces identical results in
all four fields (and in the filesystem and error), because every field is
unconditionally reassigned from the inputs. -/
theorem init_independent_of_prior_state (s1 s2 cfg : Path) (flags : Flags)
    (e : Except String String) (fs : FS) :
    s1.InitPaths cfg flags e fs = s2.InitPaths cfg flags e fs := by
  cases s1
  cases s2
  rfl

theorem setFromConfig_eq (paths cfg : Path) : setFromConfig paths cfg = cfg := by
  cases paths
  cases cfg
  rfl

theorem applyDefaults_eq (p : Path) :
    applyDefaults p =
      { Home := p.Home,
        Config := if p.Config.length = 0 then p.Home else p.Config,
        Data := if p.Data.length = 0 then filepathJoin p.Home ("data") else p.Data,
        Logs := if p.Logs.length = 0 then filepathJoin p.Home ("logs") else p.Logs } := by
  unfold applyDefaults defaultConfig defaultData defaultLogs
  by_cases h1 : p.Config.length = 0 <;> by_cases h2 : p.Data.length = 0 <;>
    by_cases h3 : p.Logs.length = 0 <;> simp [h1, h2, h3]

theorem initPaths_Home_of_nonempty (paths cfg : Path) (flags : Flags)
    (e : Except String String) (h : (afterOverrides paths cfg flags).Home.length ≠ 0) :
    (paths.initPaths cfg flags e).1.Home = (afterOverrides paths cfg flags).Home := by
  simp [Path.initPaths, h, applyDefaults_eq]

theorem initPaths_Config_of_nonempty (paths cfg : Path) (flags : Flags)
    (e : Except String String) (h : (afterOverrides paths cfg flags).Config.length ≠ 0) :
    (paths.initPaths cfg flags e).1.Config = (afterOverrides paths cfg flags).Config := by
  by_cases hq : (afterOverrides paths cfg flags).Home.length = 0
  · cases e with
    | error msg => simp [Path.initPaths, hq]
    | ok dir => simp [Path.initPaths, hq, applyDefaults_eq, h]
  · simp [Path.initPaths, hq, applyDefaults_eq, h]

theorem initPaths_Data_of_nonempty (paths cfg : Path) (flags : Flags)
    (e : Except String String) (h : (afterOverrides paths cfg flags).Data.length ≠ 0) :
    (paths.initPaths cfg flags e).1.Data = (afterOverrides paths cfg flags).Data := by
  by_cases hq : (afterOverrides paths cfg flags).Home.length = 0
  · cases e with
    | error msg => simp [Path.initPaths, hq]
    | ok dir => simp [Path.initPaths, hq, applyDefaults_eq, h]
  · simp [Path.initPaths, hq, applyDefaults_eq, h]

theorem initPaths_Logs_of_nonempty (paths cfg : Path) (flags : Flags)
    (e : Except String String) (h : (afterOverrides paths cfg flags).Logs.length ≠ 0) :
    (paths.initPaths cfg flags e).1.Logs = (afterOverrides paths cfg flags).Logs := by
  by_cases hq : (afterOverrides paths cfg flags).Home.length = 0
  · cases e with
    | error msg => simp [Path.initPaths, hq]
    | ok dir => simp [Path.initPaths, hq, applyDefaults_eq, h]
  · simp [Path.initPaths, hq, applyDefaults_eq, h]

/-- Claim C5: when the home path is still empty after base and override precedence,
initialization defaults it to the absolute path of the executable directory,
and failure to obtain that absolute path makes initialization return the
home-unresolvable error without proceeding to directory creation. -/
theorem home_default_and_failure (paths cfg : Path) (flags : Flags)
    (e : Except String String) (fs : FS)
    (h : (afterOverrides paths cfg flags).Home.length = 0) :
    (∀ msg, e = Except.error msg →
      (paths.initPaths cfg flags e).2 = some (PathError.homeUnresolvable msg) ∧
      paths.InitPaths cfg flags e fs =
        (afterOverrides paths cfg flags, fs, some (PathError.homeUnresolvable msg))) ∧
    (∀ dir, e = Except.ok dir →
      (paths.initPaths cfg flags e).1.Home = dir ∧
      (paths.initPaths cfg flags e).2 = none) := by
  constructor
  · intro msg hmsg
    subst hmsg
    constructor
    · simp [Path.initPaths, h]
    · simp [Path.InitPaths, Path.initPaths, h]
  · intro dir hdir
    subst hdir
    constructor
    · simp [Path.initPaths, h, applyDefaults_eq]
    · simp [Path.initPaths, h]

/-- Witness for C5: with empty base, no flags and a failing executable-path
resolution, initialization fails with the home-unresolvable error and an
untouched filesystem. -/
theorem home_default_and_failure_witness :
    (afterOverrides (Path.mk ("") ("") ("") ("")) (Path.mk ("") ("") ("") (""))
        (Flags.mk none none none none)).Home.length = 0 ∧
    (Path.InitPaths (Path.mk ("") ("") ("") ("")) (Path.mk ("") ("") ("") (""))
        (Flags.mk none none none none) (Except.error ("no exec")) (FS.mk [] [])) =
      (afterOverrides (Path.mk ("") ("") ("") ("")) (Path.mk ("") ("") ("") (""))
        (Flags.mk none none none none), FS.mk [] [],
        some (PathError.homeUnresolvable ("no exec"))) :=
  ⟨by decide,
    ((home_default_and_failure (Path.mk ("") ("") ("") ("")) (Path.mk ("") ("") ("") (""))
        (Flags.mk none none none none) (Except.error ("no exec")) (FS.mk [] [])
        (by decide)).1 ("no exec") rfl).2⟩

/-- Claim C10: when the home path is non-empty after base and override precedence,
the field-computation phase cannot fail, so initialization can only return a
data-directory-creation error. -/
theorem init_error_only_data_dir (paths cfg : Path) (flags : Flags)
    (e : Except String String) (fs : FS)
    (h : (afterOverrides paths cfg flags).Home.length ≠ 0) :
    (paths.initPaths cfg flags e).2 = none ∧
    ∀ err, (paths.InitPaths cfg flags e fs).2.2 = some err →
      ∃ pa cause, err = PathError.dataDirCreateFailed pa cause := by
  have h1 : paths.initPaths cfg flags e = (applyDefaults (afterOverrides paths cfg flags), none) := by
    simp [Path.initPaths, h]
  refine ⟨by simp [h1], ?_⟩
  intro err herr
  rcases hmk : fs.mkdirAll (applyDefaults (afterOverrides paths cfg flags)).Data 0o755
    with ⟨fs2, err2⟩
  cases err2 with
  | none => simp [Path.InitPaths, h1, hmk] at herr
  | some cause =>
    simp [Path.InitPaths, h1, hmk] at herr
    exact ⟨_, _, herr.symm⟩

/-- Witness for C10: with a non-empty configured home, initialization on an
empty filesystem reports no error. -/
theorem init_error_only_data_dir_witness :
    (afterOverrides (Path.mk ("") ("") ("") ("")) (Path.mk ("/opt/app") ("") ("") (""))
        (Flags.mk none none none none)).Home.length ≠ 0 ∧
    (Path.initPaths (Path.mk ("") ("") ("") ("")) (Path.mk ("/opt/app") ("") ("") (""))
        (Flags.mk none none none none) (Except.ok ("/e"))).2 = none :=
  ⟨by decide,
    (init_error_only_data_dir (Path.mk ("") ("") ("") ("")) (Path.mk ("/opt/app") ("") ("") (""))
        (Flags.mk none none none none) (Except.ok ("/e")) (FS.mk [] []) (by decide)).1⟩

/-- Claim C4: when, after precedence resolution, the config, data or logs paths are
empty, initialization defaults config to the fully resolved home, data to
home joined with data, and logs to home joined with logs, where the home used
is the final home (computed first, including its executable-directory
fallback). -/
theorem init_defaults_from_home (paths cfg : Path) (flags : Flags)
    (e : Except String String) (p : Path)
    (hs : paths.initPaths cfg flags e = (p, none)) :
    ((afterOverrides paths cfg flags).Config.length = 0 → p.Config = p.Home) ∧
    ((afterOverrides paths cfg flags).Data.length = 0 →
      p.Data = filepathJoin p.Home ("data")) ∧
    ((afterOverrides paths cfg flags).Logs.length = 0 →
      p.Logs = filepathJoin p.Home ("logs")) ∧
    ((afterOverrides paths cfg flags).Home.length = 0 →
      ∀ dir, e = Except.ok dir → p.Home = dir) := by
  by_cases hq : (afterOverrides paths cfg flags).Home.length = 0
  · cases e with
    | error msg => simp [Path.initPaths, hq] at hs
    | ok dir =>
      simp [Path.initPaths, hq] at hs
      have hp : p = applyDefaults { afterOverrides paths cfg flags with Home := dir } := hs.symm
      subst hp
      refine ⟨fun hc => ?_, fun hd => ?_, fun hl => ?_, fun _ dir2 hdir => ?_⟩
      · simp [applyDefaults_eq, hc]
      · simp [applyDefaults_eq, hd]
      · simp [applyDefaults_eq, hl]
      · injection hdir with h2
        subst h2
        simp [applyDefaults_eq]
  · have hp : p = applyDefaults (afterOverrides paths cfg flags) := by
      simp [Path.initPaths, hq] at hs
      exact hs.symm
    subst hp
    refine ⟨fun hc => ?_, fun hd => ?_, fun hl => ?_, fun hh => absurd hh hq⟩
    · simp [applyDefaults_eq, hc]
    · simp [applyDefaults_eq, hd]
    · simp [applyDefaults_eq, hl]

/-- Witness for C4: with an entirely empty base configuration and no flags,
the successful result equates config with home and derives data and logs from
home. -/
theorem init_defaults_from_home_witness :
    (Path.initPaths (Path.mk ("") ("") ("") ("")) (Path.mk ("") ("") ("") (""))
        (Flags.mk none none none none) (Except.ok ("/e"))) =
      (Path.mk ("/e") ("/e") ("/e/data") ("/e/logs"), none) ∧
    ((afterOverrides (Path.mk ("") ("") ("") ("")) (Path.mk ("") ("") ("") (""))
        (Flags.mk none none none none)).Config.length = 0 →
      (Path.mk ("/e") ("/e") ("/e/data") ("/e/logs")).Config =
        (Path.mk ("/e") ("/e") ("/e/data") ("/e/logs")).Home) ∧
    ((afterOverrides (Path.mk ("") ("") ("") ("")) (Path.mk ("") ("") ("") (""))
        (Flags.mk none none none none)).Data.length = 0 →
      (Path.mk ("/e") ("/e") ("/e/data") ("/e/logs")).Data =
        filepathJoin ((Path.mk ("/e") ("/e") ("/e/data") ("/e/logs")).Home) ("data")) ∧
    ((afterOverrides (Path.mk ("") ("") ("") ("")) (Path.mk ("") ("") ("") (""))
        (Flags.mk none none none none)).Logs.length = 0 →
      (Path.mk ("/e") ("/e") ("/e/data") ("/e/logs")).Logs =
        filepathJoin ((Path.mk ("/e") ("/e") ("/e/data") ("/e/logs")).Home) ("logs")) ∧
    ((afterOverrides (Path.mk ("") ("") ("") ("")) (Path.mk ("") ("") ("") (""))
        (Flags.mk none none none none)).Home.length = 0 →
      ∀ dir, (Except.ok ("/e") : Except String String) = Except.ok dir →
        (Path.mk ("/e") ("/e") ("/e/data") ("/e/logs")).Home = dir) := by
  refine ⟨by decide, ?_⟩
  have h := init_defaults_from_home (Path.mk ("") ("") ("") ("")) (Path.mk ("") ("") ("") (""))
    (Flags.mk none none none none) (Except.ok ("/e"))
    (Path.mk ("/e") ("/e") ("/e/data") ("/e/logs")) (by decide)
  exact h

theorem overrideVal_some (cur v : String) (h : 0 < v.length) :
    overrideVal cur (some v) = v := by
  simp [overrideVal, h]

theorem overrideVal_empty (cur : String) (o : Option String) (h : flagEmpty o) :
    overrideVal cur o = cur := by
  cases h with
  | inl h => subst h; rfl
  | inr h => subst h; simp [overrideVal]

theorem afterOverrides_fields (paths cfg : Path) (flags : Flags) :
    (afterOverrides paths cfg flags).Home = overrideVal cfg.Home flags.homePath ∧
    (afterOverrides paths cfg flags).Config = overrideVal cfg.Config flags.configPath ∧
    (afterOverrides paths cfg flags).Data = overrideVal cfg.Data flags.dataPath ∧
    (afterOverrides paths cfg flags).Logs = overrideVal cfg.Logs flags.logsPath := by
  rw [afterOverrides, setFromConfig_eq]
  exact ⟨rfl, rfl, rfl, rfl⟩

/-- Claim C3: for each of the four fields independently, a non-empty flag value
replaces the base configuration value after precedence (and survives into the
final initialized field), while a nil or empty flag keeps the base value. -/
theorem cli_override_precedence (paths cfg : Path) (flags : Flags) (e : Except String String) :
    (∀ v, flags.homePath = some v → 0 < v.length →
      (afterOverrides paths cfg flags).Home = v ∧ (paths.initPaths cfg flags e).1.Home = v) ∧
    (flagEmpty flags.homePath → (afterOverrides paths cfg flags).Home = cfg.Home) ∧
    (∀ v, flags.configPath = some v → 0 < v.length →
      (afterOverrides paths cfg flags).Config = v ∧
      (paths.initPaths cfg flags e).1.Config = v) ∧
    (flagEmpty flags.configPath → (afterOverrides paths cfg flags).Config = cfg.Config) ∧
    (∀ v, flags.dataPath = some v → 0 < v.length →
      (afterOverrides paths cfg flags).Data = v ∧ (paths.initPaths cfg flags e).1.Data = v) ∧
    (flagEmpty flags.dataPath → (afterOverrides paths cfg flags).Data = cfg.Data) ∧
    (∀ v, flags.logsPath = some v → 0 < v.length →
      (afterOverrides paths cfg flags).Logs = v ∧ (paths.initPaths cfg flags e).1.Logs = v) ∧
    (flagEmpty flags.logsPath → (afterOverrides paths cfg flags).Logs = cfg.Logs) := by
  obtain ⟨fH, fC, fD, fL⟩ := afterOverrides_fields paths cfg flags
  refine ⟨?_, ?_, ?_, ?_, ?_, ?_, ?_, ?_⟩
  · intro v hv hlen
    have h1 : (afterOverrides paths cfg flags).Home = v := by
      rw [fH, hv, overrideVal_some _ _ hlen]
    have hne : (afterOverrides paths cfg flags).Home.length ≠ 0 := by rw [h1]; omega
    exact ⟨h1, by rw [initPaths_Home_of_nonempty paths cfg flags e hne, h1]⟩
  · intro hf
    rw [fH, overrideVal_empty _ _ hf]
  · intro v hv hlen
    have h1 : (afterOverrides paths cfg flags).Config = v := by
      rw [fC, hv, overrideVal_some _ _ hlen]
    have hne : (afterOverrides paths cfg flags).Config.length ≠ 0 := by rw [h1]; omega
    exact ⟨h1, by rw [initPaths_Config_of_nonempty paths cfg flags e hne, h1]⟩
  · intro hf
    rw [fC, overrideVal_empty _ _ hf]
  · intro v hv hlen
    have h1 : (afterOverrides paths cfg flags).Data = v := by
      rw [fD, hv, overrideVal_some _ _ hlen]
    have hne : (afterOverrides paths cfg flags).Data.length ≠ 0 := by rw [h1]; omega
    exact ⟨h1, by rw [initPaths_Data_of_nonempty paths cfg flags e hne, h1]⟩
  · intro hf
    rw [fD, overrideVal_empty _ _ hf]
  · intro v hv hlen
    have h1 : (afterOverrides paths cfg flags).Logs = v := by
      rw [fL, hv, overrideVal_some _ _ hlen]
    have hne : (afterOverrides paths cfg flags).Logs.length ≠ 0 := by rw [h1]; omega
    exact ⟨h1, by rw [initPaths_Logs_of_nonempty paths cfg flags e hne, h1]⟩
  · intro hf
    rw [fL, overrideVal_empty _ _ hf]

theorem mkdirAll_success_dirs (fs : FS) (path : String) (perm : Nat) (fs2 : FS)
    (h : fs.mkdirAll path perm = (fs2, none)) :
    fs2.dirNames.contains path = true ∧ ∀ d ∈ fs2.dirs, d ∈ fs.dirs ∨ d.2 = perm := by
  by_cases h1 : path ∈ fs.dirNames
  · simp [FS.mkdirAll, h1] at h
    subst h
    exact ⟨List.elem_iff.2 h1, fun d hd => Or.inl hd⟩
  · by_cases h2 : path ∈ fs.files
    · simp [FS.mkdirAll, h1, h2] at h
    · by_cases h3 : ∃ x ∈ properAncestors path, x ∈ fs.files
      · simp [FS.mkdirAll, h1, h3] at h
      · simp [FS.mkdirAll, h1, h2, h3] at h
        subst h
        constructor
        · simp [FS.dirNames, List.elem_iff]
        · intro d hd
          simp only [List.mem_append] at hd
          rcases hd with hl | hr2 | hr3
          · exact Or.inl hl
          · rcases List.mem_map.1 hr2 with ⟨q, _, rfl⟩
            exact Or.inr rfl
          · rcases List.mem_singleton.1 hr3 with rfl
            exact Or.inr rfl

/-- Claim C7: after the four fields are computed, initialization creates the data
directory and its missing parents with mode 0755; an already-existing data
directory is success, while a creation failure makes initialization return an
error carrying the attempted path and the underlying cause, with the four
computed fields already stored (no rollback). -/
theorem init_creates_data_dir (paths cfg : Path) (flags : Flags)
    (e : Except String String) (fs : FS) (p : Path)
    (hs : paths.initPaths cfg flags e = (p, none)) :
    (fs.dirNames.contains p.Data = true → paths.InitPaths cfg flags e fs = (p, fs, none)) ∧
    (∀ fs2, fs.mkdirAll p.Data 0o755 = (fs2, none) →
      paths.InitPaths cfg flags e fs = (p, fs2, none) ∧
      fs2.dirNames.contains p.Data = true ∧
      ∀ d ∈ fs2.dirs, d ∈ fs.dirs ∨ d.2 = 0o755) ∧
    (∀ fs2 cause, fs.mkdirAll p.Data 0o755 = (fs2, some cause) →
      paths.InitPaths cfg flags e fs =
        (p, fs2, some (PathError.dataDirCreateFailed p.Data cause))) := by
  refine ⟨?_, ?_, ?_⟩
  · intro h
    have hmem : p.Data ∈ fs.dirNames := List.elem_iff.1 h
    have hm : fs.mkdirAll p.Data 0o755 = (fs, none) := by simp [FS.mkdirAll, hmem]
    simp [Path.InitPaths, hs, hm]
  · intro fs2 hm
    obtain ⟨hin, hperm⟩ := mkdirAll_success_dirs fs p.Data 0o755 fs2 hm
    exact ⟨by simp [Path.InitPaths, hs, hm], hin, hperm⟩
  · intro fs2 cause hm
    simp [Path.InitPaths, hs, hm]

/-- Witness for C7: a pre-existing data directory yields success without
touching the filesystem, and a data path occupied by a file yields the
data-dir-create-failed error with the computed fields kept. -/
theorem init_creates_data_dir_witness :
    Path.initPaths (Path.mk ("") ("") ("") ("")) (Path.mk ("/h") ("") ("") (""))
        (Flags.mk none none none none) (Except.ok ("/e")) =
      (Path.mk ("/h") ("/h") ("/h/data") ("/h/logs"), none) ∧
    (FS.mk [(("/h/data"), 0o755)] []).dirNames.contains
      (Path.mk ("/h") ("/h") ("/h/data") ("/h/logs")).Data = true ∧
    Path.InitPaths (Path.mk ("") ("") ("") ("")) (Path.mk ("/h") ("") ("") (""))
        (Flags.mk none none none none) (Except.ok ("/e")) (FS.mk [(("/h/data"), 0o755)] []) =
      (Path.mk ("/h") ("/h") ("/h/data") ("/h/logs"), FS.mk [(("/h/data"), 0o755)] [], none) ∧
    Path.InitPaths (Path.mk ("") ("") ("") ("")) (Path.mk ("/h") ("") ("") (""))
        (Flags.mk none none none none) (Except.ok ("/e")) (FS.mk [] [("/h/data")]) =
      (Path.mk ("/h") ("/h") ("/h/data") ("/h/logs"), FS.mk [] [("/h/data")],
        some (PathError.dataDirCreateFailed ("/h/data") ("not a directory"))) :=
  ⟨by decide, by decide,
    (init_creates_data_dir (Path.mk ("") ("") ("") ("")) (Path.mk ("/h") ("") ("") (""))
        (Flags.mk none none none none) (Except.ok ("/e")) (FS.mk [(("/h/data"), 0o755)] [])
        (Path.mk ("/h") ("/h") ("/h/data") ("/h/logs")) (by decide)).1 (by decide),
    (init_creates_data_dir (Path.mk ("") ("") ("") ("")) (Path.mk ("/h") ("") ("") (""))
        (Flags.mk none none none none) (Except.ok ("/e")) (FS.mk [] [("/h/data")])
        (Path.mk ("/h") ("/h") ("/h/data") ("/h/logs")) (by decide)).2.2
      (FS.mk [] [("/h/data")]) ("not a directory") (by decide)⟩

/-- Witness for C3: an overriding flag wins for home and logs, an empty flag
value keeps the base config path, and a nil flag keeps the base data path. -/
theorem cli_override_precedence_witness :
    (afterOverrides (Path.mk ("") ("") ("") ("")) (Path.mk ("/bh") ("/bc") ("/bd") ("/bl"))
        (Flags.mk (some ("/oh")) (some ("")) none (some ("/ol")))).Home = "/oh" ∧
    (afterOverrides (Path.mk ("") ("") ("") ("")) (Path.mk ("/bh") ("/bc") ("/bd") ("/bl"))
        (Flags.mk (some ("/oh")) (some ("")) none (some ("/ol")))).Config = "/bc" ∧
    (afterOverrides (Path.mk ("") ("") ("") ("")) (Path.mk ("/bh") ("/bc") ("/bd") ("/bl"))
        (Flags.mk (some ("/oh")) (some ("")) none (some ("/ol")))).Data = "/bd" ∧
    (afterOverrides (Path.mk ("") ("") ("") ("")) (Path.mk ("/bh") ("/bc") ("/bd") ("/bl"))
        (Flags.mk (some ("/oh")) (some ("")) none (some ("/ol")))).Logs = "/ol" ∧
    (Path.initPaths (Path.mk ("") ("") ("") ("")) (Path.mk ("/bh") ("/bc") ("/bd") ("/bl"))
        (Flags.mk (some ("/oh")) (some ("")) none (some ("/ol")))
        (Except.ok ("/e"))).1.Home = "/oh" := by
  have h := cli_override_precedence (Path.mk ("") ("") ("") (""))
    (Path.mk ("/bh") ("/bc") ("/bd") ("/bl"))
    (Flags.mk (some ("/oh")) (some ("")) none (some ("/ol"))) (Except.ok ("/e"))
  exact ⟨(h.1 ("/oh") rfl (by decide)).1, h.2.2.2.1 (by decide), h.2.2.2.2.2.1 (by decide),
    (h.2.2.2.2.2.2.1 ("/ol") rfl (by decide)).1, (h.1 ("/oh") rfl (by decide)).2⟩

theorem abs_length_ne_zero (s : String) (h : filepathIsAbs s = true) : s.length ≠ 0 := by
  cases s with
  | mk d =>
    cases d with
    | nil => exact absurd h (by decide)
    | cons c cs => simp [String.length]

theorem clean_abs (s : String) (h : filepathIsAbs s = true) :
    filepathIsAbs (clean s) = true := by
  unfold clean
  rw [h]
  simp [filepathIsAbs]

theorem filepathJoin_abs (a b : String) (h : filepathIsAbs a = true) :
    filepathIsAbs (filepathJoin a b) = true := by
  have hne : a.length ≠ 0 := abs_length_ne_zero a h
  unfold filepathJoin
  rw [if_neg hne]
  apply clean_abs
  cases a with
  | mk d =>
    cases d with
    | nil => exact absurd h (by decide)
    | cons c cs =>
      have hc : c = '/' := by
        have := of_decide_eq_true (by simpa [filepathIsAbs] using h)
        exact this
      subst hc
      simp [filepathIsAbs]

theorem overrideVal_absOrEmpty (cur : String) (o : Option String)
    (hc : absOrEmpty cur) (ho : flagAbsOrEmpty o) : absOrEmpty (overrideVal cur o) := by
  cases o with
  | none => exact hc
  | some v =>
    by_cases hv : 0 < v.length
    · rw [overrideVal_some _ _ hv]
      exact ho v rfl
    · simp [overrideVal, hv]
      exact hc

theorem absOrEmpty_resolve (s : String) (hs : absOrEmpty s) (hne : s.length ≠ 0) :
    filepathIsAbs s = true := by
  cases hs with
  | inl h => exact absurd h hne
  | inr h => exact h

theorem applyDefaults_abs (q : Path) (hH : filepathIsAbs q.Home = true)
    (hC : absOrEmpty q.Config) (hD : absOrEmpty q.Data) (hL : absOrEmpty q.Logs) :
    filepathIsAbs (applyDefaults q).Home = true ∧
    filepathIsAbs (applyDefaults q).Config = true ∧
    filepathIsAbs (applyDefaults q).Data = true ∧
    filepathIsAbs (applyDefaults q).Logs = true := by
  rw [applyDefaults_eq]
  refine ⟨hH, ?_, ?_, ?_⟩
  · by_cases h : q.Config.length = 0 <;> simp [h]
    · exact hH
    · exact absOrEmpty_resolve _ hC h
  · by_cases h : q.Data.length = 0 <;> simp [h]
    · exact filepathJoin_abs _ _ hH
    · exact absOrEmpty_resolve _ hD h
  · by_cases h : q.Logs.length = 0 <;> simp [h]
    · exact filepathJoin_abs _ _ hH
    · exact absOrEmpty_resolve _ hL h

theorem initPaths_fields_abs (paths cfg : Path) (flags : Flags)
    (e : Except String String) (p : Path)
    (hHome : absOrEmpty cfg.Home) (hConfig : absOrEmpty cfg.Config)
    (hData : absOrEmpty cfg.Data) (hLogs : absOrEmpty cfg.Logs)
    (fH : flagAbsOrEmpty flags.homePath) (fC : flagAbsOrEmpty flags.configPath)
    (fD : flagAbsOrEmpty flags.dataPath) (fL : flagAbsOrEmpty flags.logsPath)
    (he : ∀ dir, e = Except.ok dir → filepathIsAbs dir = true)
    (hs : paths.initPaths cfg flags e = (p, none)) :
    filepathIsAbs p.Home = true ∧ filepathIsAbs p.Config = true ∧
    filepathIsAbs p.Data = true ∧ filepathIsAbs p.Logs = true := by
  obtain ⟨gH, gC, gD, gL⟩ := afterOverrides_fields paths cfg flags
  have qH : absOrEmpty (afterOverrides paths cfg flags).Home := by
    rw [gH]
    exact overrideVal_absOrEmpty _ _ hHome fH
  have qC : absOrEmpty (afterOverrides paths cfg flags).Config := by
    rw [gC]
    exact overrideVal_absOrEmpty _ _ hConfig fC
  have qD : absOrEmpty (afterOverrides paths cfg flags).Data := by
    rw [gD]
    exact overrideVal_absOrEmpty _ _ hData fD
  have qL : absOrEmpty (afterOverrides paths cfg flags).Logs := by
    rw [gL]
    exact overrideVal_absOrEmpty _ _ hLogs fL
  by_cases hq : (afterOverrides paths cfg flags).Home.length = 0
  · cases e with
    | error msg => simp [Path.initPaths, hq] at hs
    | ok dir =>
      simp [Path.initPaths, hq] at hs
      have hp : p = applyDefaults { afterOverrides paths cfg flags with Home := dir } := hs.symm
      subst hp
      exact applyDefaults_abs _ (he dir rfl) qC qD qL
  · have hp : p = applyDefaults (afterOverrides paths cfg flags) := by
      simp [Path.initPaths, hq] at hs
      exact hs.symm
    subst hp
    exact applyDefaults_abs _ (absOrEmpty_resolve _ qH hq) qC qD qL

/-- Counterexample to C2 as stated: initialization succeeds on a relative
supplied home path, leaving a home field that is not absolute. -/
theorem init_fields_invariant_cex :
    (Path.InitPaths (Path.mk ("") ("") ("") ("")) (Path.mk ("x") ("") ("") (""))
        (Flags.mk none none none none) (Except.ok ("/e")) (FS.mk [] [])).2.2 = none ∧
    filepathIsAbs ((Path.InitPaths (Path.mk ("") ("") ("") ("")) (Path.mk ("x") ("") ("") (""))
        (Flags.mk none none none none) (Except.ok ("/e")) (FS.mk [] [])).1.Home) = false := by
  decide

/-- Claim C2 amended: after every successful initialization whose supplied and
override path values are each empty or absolute, and whose executable
directory resolves to an absolute path, all four fields hold non-empty,
absolute paths. -/
theorem init_fields_nonempty_absolute (paths cfg : Path) (flags : Flags)
    (e : Except String String) (fs : FS) (p : Path) (fs2 : FS)
    (hHome : absOrEmpty cfg.Home) (hConfig : absOrEmpty cfg.Config)
    (hData : absOrEmpty cfg.Data) (hLogs : absOrEmpty cfg.Logs)
    (fH : flagAbsOrEmpty flags.homePath) (fC : flagAbsOrEmpty flags.configPath)
    (fD : flagAbsOrEmpty flags.dataPath) (fL : flagAbsOrEmpty flags.logsPath)
    (he : ∀ dir, e = Except.ok dir → filepathIsAbs dir = true)
    (hs : paths.InitPaths cfg flags e fs = (p, fs2, none)) :
    (p.Home.length ≠ 0 ∧ filepathIsAbs p.Home = true) ∧
    (p.Config.length ≠ 0 ∧ filepathIsAbs p.Config = true) ∧
    (p.Data.length ≠ 0 ∧ filepathIsAbs p.Data = true) ∧
    (p.Logs.length ≠ 0 ∧ filepathIsAbs p.Logs = true) := by
  rcases hip : paths.initPaths cfg flags e with ⟨p0, err⟩
  cases err with
  | some err0 => simp [Path.InitPaths, hip] at hs
  | none =>
    have hp0 : p0 = p := by
      rcases hm : fs.mkdirAll p0.Data 0o755 with ⟨fs3, err2⟩
      cases err2 with
      | some cause => simp [Path.InitPaths, hip, hm] at hs
      | none =>
        simp [Path.InitPaths, hip, hm] at hs
        exact hs.1
    subst hp0
    obtain ⟨aH, aC, aD, aL⟩ := initPaths_fields_abs paths cfg flags e p0
      hHome hConfig hData hLogs fH fC fD fL he hip
    exact ⟨⟨abs_length_ne_zero _ aH, aH⟩, ⟨abs_length_ne_zero _ aC, aC⟩,
      ⟨abs_length_ne_zero _ aD, aD⟩, ⟨abs_length_ne_zero _ aL, aL⟩⟩

/-- Witness for the amended C2 at a concrete absolute configuration. -/
theorem init_fields_nonempty_absolute_witness :
    absOrEmpty (Path.mk ("/opt/app") ("") ("") ("")).Home ∧
    flagAbsOrEmpty (some ("/var/lib/app")) ∧
    (∀ dir, (Except.ok ("/e") : Except String String) = Except.ok dir →
      filepathIsAbs dir = true) ∧
    Path.InitPaths (Path.mk ("") ("") ("") ("")) (Path.mk ("/opt/app") ("") ("") (""))
        (Flags.mk none none (some ("/var/lib/app")) none) (Except.ok ("/e")) (FS.mk [] []) =
      (Path.mk ("/opt/app") ("/opt/app") ("/var/lib/app") ("/opt/app/logs"),
        FS.mk [(("/var"), 0o755), (("/var/lib"), 0o755), (("/var/lib/app"), 0o755)] [], none) ∧
    ((Path.mk ("/opt/app") ("/opt/app") ("/var/lib/app") ("/opt/app/logs")).Home.length ≠ 0 ∧
      filepathIsAbs (Path.mk ("/opt/app") ("/opt/app") ("/var/lib/app") ("/opt/app/logs")).Home =
        true) ∧
    ((Path.mk ("/opt/app") ("/opt/app") ("/var/lib/app") ("/opt/app/logs")).Config.length ≠ 0 ∧
      filepathIsAbs
        (Path.mk ("/opt/app") ("/opt/app") ("/var/lib/app") ("/opt/app/logs")).Config = true) ∧
    ((Path.mk ("/opt/app") ("/opt/app") ("/var/lib/app") ("/opt/app/logs")).Data.length ≠ 0 ∧
      filepathIsAbs (Path.mk ("/opt/app") ("/opt/app") ("/var/lib/app") ("/opt/app/logs")).Data =
        true) ∧
    ((Path.mk ("/opt/app") ("/opt/app") ("/var/lib/app") ("/opt/app/logs")).Logs.length ≠ 0 ∧
      filepathIsAbs (Path.mk ("/opt/app") ("/opt/app") ("/var/lib/app") ("/opt/app/logs")).Logs =
        true) :=
  ⟨by decide, by decide, fun dir hd => by injection hd with h2; rw [← h2]; decide, by decide,
    init_fields_nonempty_absolute (Path.mk ("") ("") ("") (""))
      (Path.mk ("/opt/app") ("") ("") ("")) (Flags.mk none none (some ("/var/lib/app")) none)
      (Except.ok ("/e")) (FS.mk [] [])
      (Path.mk ("/opt/app") ("/opt/app") ("/var/lib/app") ("/opt/app/logs"))
      (FS.mk [(("/var"), 0o755), (("/var/lib"), 0o755), (("/var/lib/app"), 0o755)] [])
      (by decide) (by decide) (by decide) (by decide) (by decide) (by decide) (by decide)
      (by decide) (fun dir hd => by injection hd with h2; rw [← h2]; decide) (by decide)⟩

end paths
